import Mathlib

/-!
Verification development for the pysonio client library.

The Python sources are shallowly embedded as Lean definitions:
  - `datetime` values are modelled as integers on an absolute timeline
    (seconds); `datetime.now()` becomes an explicit `now : Int` argument.
  - network transport (the `requests` library) is an external collaborator
    and is modelled as an oracle argument: the raw response a request would
    produce, or a transport failure.
  - JSON-schema validation of response bodies (pydantic) is an external
    collaborator; a raw response carries the outcome of parsing its body
    against each schema the client code applies to it.
  - Python dicts of headers and query parameters are modelled as ordered
    association lists with dict-assignment update semantics.
Stateful methods become explicit state passing; code that raises becomes
`Except`.
-/

namespace Pysonio

/-- `AuthToken` from `models/authentication.py`: access token string, optional
refresh token, absolute expiration timestamp, list of granted scopes. -/
structure AuthToken where
  access_token : String
  refresh_token : Option String
  expires_at : Int
  scopes : List String
deriving DecidableEq, Repr

/-- `_TOKEN_EXPIRATION_MARGIN_SECONDS = 3 * 60` from `utils.py`. -/
def tokenExpirationMarginSeconds : Int := 3 * 60

/-- `is_token_valid` from `utils.py`:
`datetime.now() < token.expires_at - timedelta(seconds=_TOKEN_EXPIRATION_MARGIN_SECONDS)`.
The current time is passed explicitly. -/
def is_token_valid (now : Int) (token : AuthToken) : Bool :=
  decide (now < token.expires_at - tokenExpirationMarginSeconds)

/-- Result of one `Client._get_auth_token()` call: the returned token, the
value of `self._auth_token` after the call, and whether `_obtain_auth_token`
was invoked. -/
structure GetTokenResult where
  token : AuthToken
  cached : Option AuthToken
  invoked : Bool
deriving DecidableEq, Repr

/-- `Client._get_auth_token` from `__init__.py`:
if `self._auth_token is None or not is_token_valid(self._auth_token)` then
`self._auth_token = self._obtain_auth_token()`; return `self._auth_token`.
`obtain` is the token a successful `_obtain_auth_token()` call would return
(its failure paths are modelled separately by `obtain_auth_token`). -/
def get_auth_token (now : Int) (obtain : AuthToken) (cached : Option AuthToken) :
    GetTokenResult :=
  match cached with
  | none => ⟨obtain, some obtain, true⟩
  | some t =>
      if is_token_valid now t then ⟨t, some t, false⟩
      else ⟨obtain, some obtain, true⟩

/-- Character class `[A-Z0-9]` of `_UPPER_SNAKE_CASE_PATTERN` in `utils.py`. -/
def isUpperSnakeCaseChar (c : Char) : Bool :=
  ('A' ≤ c && c ≤ 'Z') || ('0' ≤ c && c ≤ '9')

/-- Matcher for the regex `^[A-Z0-9]+(?:_[A-Z0-9]+)*$` from `utils.py`,
written as the evident automaton over the character list. `inGroup` records
whether at least one class character of the current `[A-Z0-9]+` group has
been read: acceptance at end of input, and an underscore starting the next
group, both require it. -/
def upperSnakeMatch : Bool → List Char → Bool
  | inGroup, [] => inGroup
  | inGroup, c :: cs =>
      if isUpperSnakeCaseChar c then upperSnakeMatch true cs
      else if c = '_' then inGroup && upperSnakeMatch false cs
      else false

/-- `is_upper_snake_case` from `utils.py`:
`_UPPER_SNAKE_CASE_PATTERN.fullmatch(name) is not None`. -/
def is_upper_snake_case (name : String) : Bool :=
  upperSnakeMatch false name.data

/-- The mutable state of a `Client` instance (from `Client.__init__`):
credentials, the `self._personio_headers` dict, the pre-joined scope string
`self._scopes`, the lazily obtained token cache `self._auth_token`, and the
base URL. -/
structure Client where
  client_id : String
  client_secret : String
  personio_headers : List (String × String)
  scopes : Option String
  auth_token : Option AuthToken
  base_url : String
deriving DecidableEq, Repr

/-- Python dict assignment `d[k] = v` on an ordered association list:
replace the value in place if the key exists, otherwise append. -/
def setHeader : List (String × String) → String → String → List (String × String)
  | [], k, v => [(k, v)]
  | (k', v') :: rest, k, v =>
      if k' = k then (k, v) :: rest else (k', v') :: setHeader rest k v

/-- Python dict lookup `d.get(k)` on an ordered association list. -/
def getHeader : List (String × String) → String → Option String
  | [], _ => none
  | (k', v') :: rest, k => if k' = k then some v' else getHeader rest k

/-- `Client.__init__` from `__init__.py`: validates the partner identifier,
then the app identifier, against `is_upper_snake_case`, raising `ValueError`
(modelled as `Except.error` with the message) on the first failure; on
success builds the initial state. Construction performs no network call. -/
def Client.init (client_id client_secret personio_partner_identifier
    personio_app_identifier : String) (scopes : Option (List String))
    (base_url : String) : Except String Client :=
  if ¬ is_upper_snake_case personio_partner_identifier then
    .error ("Invalid Personio partner identifier: " ++ personio_partner_identifier
      ++ ". It must be in upper snake case format.")
  else if ¬ is_upper_snake_case personio_app_identifier then
    .error ("Invalid Personio app identifier: " ++ personio_app_identifier
      ++ ". It must be in upper snake case format.")
  else
    .ok
      { client_id := client_id
        client_secret := client_secret
        personio_headers :=
          [("X-Personio-Partner-ID", personio_partner_identifier),
           ("X-Personio-App-ID", personio_app_identifier)]
        scopes := scopes.map (String.intercalate " ")
        auth_token := none
        base_url := base_url }

/-- `ContentType` from `content_type.py`. -/
inductive ContentType
  | x_www_form_url_encoded
  | json
deriving DecidableEq, Repr

/-- The `.value` of each `ContentType` member. -/
def ContentType.value : ContentType → String
  | .x_www_form_url_encoded => "application/x-www-form-urlencoded"
  | .json => "application/json"

/-- Result of one `Client._get_headers()` call: the headers dict it returns
and the client state afterwards. In the Python code `headers` is the very
object `self._personio_headers` (no copy is made), so every header written
here is also written into the client state. -/
structure GetHeadersResult where
  headers : List (String × String)
  client : Client
deriving DecidableEq, Repr

/-- `Client._get_headers` from `__init__.py`. The local `headers` aliases
`self._personio_headers`; the dict assignments (`Beta`, `Accept`,
`Content-Type`, `Authorization`) therefore mutate the instance dict, which
the resulting client state records. `obtain` is the token a successful
`_obtain_auth_token()` would return, consumed through `get_auth_token`. -/
def Client.get_headers (c : Client) (now : Int) (obtain : AuthToken)
    (content_type : Option ContentType) (is_beta_endpoint : Bool)
    (omit_authentication : Bool) : GetHeadersResult :=
  let headers := c.personio_headers
  let headers := if is_beta_endpoint then setHeader headers "Beta" "true" else headers
  let headers := setHeader headers "Accept" "application/json"
  let headers :=
    match content_type with
    | some ct => setHeader headers "Content-Type" ct.value
    | none => headers
  if omit_authentication then
    ⟨headers, { c with personio_headers := headers }⟩
  else
    let r := get_auth_token now obtain c.auth_token
    let headers := setHeader headers "Authorization" ("Bearer " ++ r.token.access_token)
    ⟨headers, { c with personio_headers := headers, auth_token := r.cached }⟩

/-- An `UnexpectedResponse` exception value (`errors.py`): it carries the raw
response (of the relevant endpoint) and the message it was raised with. -/
structure UnexpectedResponseData (Raw : Type) where
  response : Raw
  message : String
deriving DecidableEq, Repr

/-- `Client._validate_response` from `__init__.py`, generic over the target
model: the status code must equal `expected` exactly, else an
`UnexpectedResponse` naming actual vs expected code is raised; then the body
must decode as JSON and validate against the model, else an
`UnexpectedResponse` naming the model is raised. Body decoding plus pydantic
validation is the external collaborator `parse` (the JSON-decode failure and
the schema-validation failure both surface as `parse = none`; `modelName` is
`response_model.__name__` as used in the failure message). -/
def validate_response {Raw M : Type} (statusOf : Raw → Nat) (parse : Raw → Option M)
    (modelName : String) (response : Raw) (expected : Nat) :
    Except (UnexpectedResponseData Raw) M :=
  if statusOf response ≠ expected then
    .error ⟨response, "Unexpected status code " ++ toString (statusOf response)
      ++ ". Expected " ++ toString expected ++ "."⟩
  else
    match parse response with
    | some m => .ok m
    | none => .error ⟨response, "Response from did not match expected model " ++ modelName⟩

/-- `OAuth2ErrorType` from `models/authentication.py`. -/
inductive OAuth2ErrorType
  | invalid_request
  | invalid_client
  | invalid_grant
  | unauthorized_client
  | unsupported_grant_type
  | invalid_scope
  | server_error
  | temporarily_unavailable
  | access_denied
  | unsupported_response_type
deriving DecidableEq, Repr

/-- `AuthErrorResponse` from `models/authentication.py` (the `meta` dict of
arbitrary JSON is out of scope and omitted). -/
structure AuthErrorResponse where
  error : OAuth2ErrorType
  error_description : Option String
  error_uri : Option String
  timestamp : Int
  trace_id : String
deriving DecidableEq, Repr

/-- `AuthResponse` from `models/authentication.py`. `token_type` is the
literal `Bearer` and is omitted. -/
structure AuthResponse where
  access_token : String
  refresh_token : Option String
  expires_in : Int
  scope : String
deriving DecidableEq, Repr

/-- `AuthToken.from_auth_response` from `models/authentication.py`:
`expires_at = datetime.now() + timedelta(seconds=response.expires_in)`;
`scopes = response.scope.split() if response.scope else []` (Python
`str.split()` splits on whitespace runs, producing no empty fields). -/
def AuthToken.from_auth_response (now : Int) (response : AuthResponse) : AuthToken :=
  { access_token := response.access_token
    refresh_token := response.refresh_token
    expires_at := now + response.expires_in
    scopes :=
      if response.scope = "" then []
      else (response.scope.split Char.isWhitespace).filter (fun s => ¬ s.isEmpty) }

/-- `AuthRequest` from `models/authentication.py`: `grant_type` defaults to
`client_credentials` and `scope` defaults to `None`. -/
structure AuthRequest where
  client_id : String
  client_secret : String
  grant_type : String := "client_credentials"
  scope : Option String := none
deriving DecidableEq, Repr

/-- The `AuthRequest(client_id=self._client_id, client_secret=self._client_secret)`
payload built inside `Client._obtain_auth_token` (no other field is passed). -/
def Client.build_auth_request (c : Client) : AuthRequest :=
  { client_id := c.client_id, client_secret := c.client_secret }

/-- The form-encoded body `requests.post(..., data=payload.model_dump())`
sends for an `AuthRequest`: the fields in declaration order, with `None`
values dropped by the `requests` form encoder. -/
def AuthRequest.formBody (r : AuthRequest) : List (String × String) :=
  [("client_id", r.client_id), ("client_secret", r.client_secret),
   ("grant_type", r.grant_type)]
  ++ (match r.scope with
      | some s => [("scope", s)]
      | none => [])

/-- A raw response of the token endpoint, with the outcomes of parsing its
body against the two schemas `_obtain_auth_token` applies to it. -/
structure RawAuthResponse where
  status_code : Nat
  asAuthResponse : Option AuthResponse
  asAuthErrorResponse : Option AuthErrorResponse
deriving DecidableEq, Repr

/-- The exceptions `Client._obtain_auth_token` can raise:
`AuthenticationError` (with the parsed OAuth error envelope when available)
or an `UnexpectedResponse` escaping from the nested re-validation. -/
inductive ObtainError
  | authenticationError (detail : Option AuthErrorResponse)
  | unexpectedResponse (e : UnexpectedResponseData RawAuthResponse)
deriving DecidableEq, Repr

/-- `Client._obtain_auth_token` from `__init__.py`. `transport` is the
collaborator outcome of the POST to the token endpoint: `none` models a
`RequestException` (which `_send_post_request` wraps as `CommunicationError`,
caught here and re-raised as `AuthenticationError()` with no detail); `some
raw` is the raw response, validated against `AuthResponse` with expected
status 200 (OK). On an `UnexpectedResponse` the raw response is re-validated
against `AuthErrorResponse` with expected status hard-coded to 400
(BAD_REQUEST): success raises `AuthenticationError(error_response)`, failure
lets the new `UnexpectedResponse` from the re-validation propagate. -/
def obtain_auth_token (now : Int) (transport : Option RawAuthResponse) :
    Except ObtainError AuthToken :=
  match transport with
  | none => .error (.authenticationError none)
  | some raw =>
      match validate_response RawAuthResponse.status_code RawAuthResponse.asAuthResponse
          "AuthResponse" raw 200 with
      | .ok auth_response => .ok (AuthToken.from_auth_response now auth_response)
      | .error e =>
          match validate_response RawAuthResponse.status_code
              RawAuthResponse.asAuthErrorResponse "AuthErrorResponse" e.response 400 with
          | .ok error_response => .error (.authenticationError (some error_response))
          | .error e2 => .error (.unexpectedResponse e2)

/-- A value of the flat query-parameter mapping returned by
`extract_query_params` in `utils.py`: a key appearing once stays a scalar, a
repeated key becomes a list of its values. -/
inductive QueryValue
  | scalar (s : String)
  | multi (l : List String)
deriving DecidableEq, Repr

/-- Characters before the first occurrence of `stop`. -/
def takeUntil (stop : Char) : List Char → List Char
  | [] => []
  | c :: cs => if c = stop then [] else c :: takeUntil stop cs

/-- Characters after the first occurrence of `stop`, or `none` when `stop`
does not occur. -/
def dropThroughFirst (stop : Char) : List Char → Option (List Char)
  | [] => none
  | c :: cs => if c = stop then some cs else dropThroughFirst stop cs

/-- The `query` component `urllib.parse.urlsplit(url).query`: everything
after the first `?` of the URL, with the fragment (everything from the first
`#` on) removed first. -/
def urlsplitQuery (url : String) : List Char :=
  match dropThroughFirst '?' (takeUntil '#' url.data) with
  | none => []
  | some q => q

/-- A hexadecimal digit and its value, for percent-decoding. -/
def hexDigitValue (c : Char) : Option Nat :=
  if '0' ≤ c ∧ c ≤ '9' then some (c.toNat - '0'.toNat)
  else if 'a' ≤ c ∧ c ≤ 'f' then some (c.toNat - 'a'.toNat + 10)
  else if 'A' ≤ c ∧ c ≤ 'F' then some (c.toNat - 'A'.toNat + 10)
  else none

/-- Character-level model of `urllib.parse.unquote_plus`: `+` becomes a
space, `%XX` with two hex digits becomes the byte value (identified with the
code point; the multi-byte UTF-8 case is out of scope), an invalid escape is
kept literally. -/
def unquotePlusChars : List Char → List Char
  | [] => []
  | '%' :: a :: b :: rest =>
      match hexDigitValue a, hexDigitValue b with
      | some ha, some hb => Char.ofNat (16 * ha + hb) :: unquotePlusChars rest
      | _, _ => '%' :: unquotePlusChars (a :: b :: rest)
  | '+' :: rest => ' ' :: unquotePlusChars rest
  | c :: rest => c :: unquotePlusChars rest

/-- `urllib.parse.unquote_plus` on a string. -/
def unquote_plus (s : String) : String :=
  ⟨unquotePlusChars s.data⟩

/-- Splitting step for `str.split(sep)` on character lists. -/
def splitOnSepAux (sep : Char) : List Char → List Char → List (List Char)
  | [], acc => [acc.reverse]
  | c :: cs, acc =>
      if c = sep then acc.reverse :: splitOnSepAux sep cs []
      else splitOnSepAux sep cs (c :: acc)

/-- Python `str.split(sep)` for a one-character separator. -/
def splitOnSep (sep : Char) (cs : List Char) : List (List Char) :=
  splitOnSepAux sep cs []

/-- Python `str.split(sep, 1)` at the first `=`: the name and the remaining
value (which may itself contain `=`), or `none` when `=` does not occur. -/
def splitFirstEq : List Char → Option (List Char × List Char)
  | [] => none
  | c :: cs =>
      if c = '=' then some ([], cs)
      else
        match splitFirstEq cs with
        | none => none
        | some (n, v) => some (c :: n, v)

/-- `urllib.parse.parse_qsl(query, keep_blank_values=True)`: split the query
on `&`, skip empty fields, split each field at the first `=` (a field with
no `=` keeps a blank value), and percent-decode names and values. -/
def parse_qsl (query : List Char) : List (String × String) :=
  ((splitOnSep '&' query).filter (fun p => ¬ p.isEmpty)).map fun part =>
    match splitFirstEq part with
    | none => (unquote_plus ⟨part⟩, "")
    | some (n, v) => (unquote_plus ⟨n⟩, unquote_plus ⟨v⟩)

/-- Dict-building step of `parse_qs`: append the value to the entry of an
already seen key, otherwise append a new single-value entry. -/
def insertGrouped : List (String × List String) → String → String →
    List (String × List String)
  | [], k, v => [(k, [v])]
  | (k', vs) :: rest, k, v =>
      if k' = k then (k', vs ++ [v]) :: rest else (k', vs) :: insertGrouped rest k v

/-- `urllib.parse.parse_qs`: group the `parse_qsl` pairs by key, keys in
first-occurrence order, values of one key in order. -/
def parse_qs (query : List Char) : List (String × List String) :=
  (parse_qsl query).foldl (fun acc kv => insertGrouped acc kv.1 kv.2) []

/-- `extract_query_params` from `utils.py`:
`{k: v[0] if len(v) == 1 else v for k, v in parse_qs(urlsplit(url).query, keep_blank_values=True).items()}`. -/
def extract_query_params (url : String) : List (String × QueryValue) :=
  (parse_qs (urlsplitQuery url)).map fun kvs =>
    match kvs with
    | (k, [v]) => (k, .scalar v)
    | (k, vs) => (k, .multi vs)

/-- `PaginationQueryParams` from `models/pagination.py`: the only fields are
`limit: Optional[int] = None` and `cursor: Optional[str] = None`. -/
structure PaginationQueryParams where
  limit : Option Int := none
  cursor : Option String := none
deriving DecidableEq, Repr

/-- Accumulating decimal parser over characters. -/
def decimalNatAux : List Char → Nat → Option Nat
  | [], acc => some acc
  | c :: cs, acc =>
      if c.isDigit then decimalNatAux cs (acc * 10 + (c.toNat - '0'.toNat))
      else none

/-- A nonempty all-digit character list as a natural number. -/
def decimalNat : List Char → Option Nat
  | [] => none
  | cs => decimalNatAux cs 0

/-- Pydantic lax string-to-int coercion, modelled as parsing a decimal
integer literal with an optional leading minus sign. -/
def pydanticLaxInt (s : String) : Option Int :=
  match s.data with
  | '-' :: cs => (decimalNat cs).map (fun n => -(n : Int))
  | cs => (decimalNat cs).map (fun n => (n : Int))

/-- Dict lookup on the flat query-parameter mapping. -/
def lookupParam : List (String × QueryValue) → String → Option QueryValue
  | [], _ => none
  | (k', v) :: rest, k => if k' = k then some v else lookupParam rest k

/-- `PaginationQueryParams.model_validate(mapping)`: pydantic with the
default config ignores keys other than the declared `limit` and `cursor`; a
missing key keeps the `None` default; `limit` accepts a scalar that parses
as a decimal integer (lax string-to-int coercion, modelled by
`pydanticLaxInt`) and rejects a list; `cursor` accepts any scalar string and
rejects a list. `none` is a `ValidationError`. -/
def validatePaginationQueryParams (m : List (String × QueryValue)) :
    Option PaginationQueryParams := do
  let limit ←
    match lookupParam m "limit" with
    | none => pure none
    | some (.scalar s) =>
        match pydanticLaxInt s with
        | some n => pure (some n)
        | none => none
    | some (.multi _) => none
  let cursor ←
    match lookupParam m "cursor" with
    | none => pure none
    | some (.scalar s) => pure (some s)
    | some (.multi _) => none
  pure { limit := limit, cursor := cursor }

/-- The query-parameter dict `_send_get_request` sends for a
`PaginationQueryParams`: `model_dump()` with `None` values filtered out,
fields in declaration order, the `limit` integer stringified by the URL
encoder. -/
def PaginationQueryParams.dump (q : PaginationQueryParams) : List (String × String) :=
  (match q.limit with
   | some n => [("limit", toString n)]
   | none => [])
  ++ (match q.cursor with
      | some c => [("cursor", c)]
      | none => [])

/-- A JSON-like value, for the dictionaries `model_dump()` produces and the
values pydantic validates. -/
inductive Json
  | null
  | str (s : String)
  | num (n : Int)
  | bool (b : Bool)
  | arr (elems : List Json)
  | obj (fields : List (String × Json))

/-- Dict lookup on the fields of a JSON object. -/
def jsonLookup : List (String × Json) → String → Option Json
  | [], _ => none
  | (k', v) :: rest, k => if k' = k then some v else jsonLookup rest k

/-- `MetaWithLinks` from `models/meta.py`: a required `links: dict[str, Any]`
field plus arbitrary extra fields captured by `extra="allow"`. -/
structure MetaWithLinks where
  links : List (String × Json)
  extra : List (String × Json)

/-- `model_dump()` of a `MetaWithLinks`: the declared `links` field first
(under its field name), then the captured extra fields. -/
def MetaWithLinks.model_dump (m : MetaWithLinks) : Json :=
  .obj (("links", .obj m.links) :: m.extra)

/-- The shape shared by the validated list responses
(`ListPersonsResponse`, `ListAbsenceTypesResponse`, ...): a `data` field
declared with `Field(alias="_data")` and an optional `meta` field declared
with `Field(alias="_meta")`, generic in the item type `α`. -/
structure ListResponse (α : Type) where
  data : List α
  meta : Option MetaWithLinks

/-- `response.model_dump()` of a `ListResponse`: `by_alias` is left at its
default `False`, so the emitted keys are the FIELD NAMES `data` and `meta`,
not the wire aliases `_data` and `_meta`. `dumpItem` serializes one item of
the `data` array. -/
def ListResponse.model_dump {α : Type} (dumpItem : α → Json)
    (r : ListResponse α) : Json :=
  .obj [("data", .arr (r.data.map dumpItem)),
        ("meta", match r.meta with
                 | none => .null
                 | some m => m.model_dump)]

/-- `PaginationLink` from `models/pagination.py`. -/
structure PaginationLink where
  href : String

/-- `PaginationLinks` from `models/pagination.py`. -/
structure PaginationLinks where
  next : PaginationLink

/-- `PaginationMeta` from `models/pagination.py`. -/
structure PaginationMeta where
  links : PaginationLinks

/-- `PaginatedResponse` from `models/pagination.py`: one field `meta`
declared with `Field(alias="_meta")`. -/
structure PaginatedResponse where
  meta : PaginationMeta

/-- `PaginationLink.model_validate`: requires an object with an `href` key
holding a string (extra keys ignored). -/
def PaginationLink.model_validate : Json → Option PaginationLink
  | .obj fields =>
      match jsonLookup fields "href" with
      | some (.str href) => some ⟨href⟩
      | _ => none
  | _ => none

/-- `PaginationLinks.model_validate`: requires an object with a `next` key
validating as a `PaginationLink`. -/
def PaginationLinks.model_validate (d : Json) : Option PaginationLinks :=
  match d with
  | .obj fields =>
      match jsonLookup fields "next" with
      | some v => (PaginationLink.model_validate v).map (⟨·⟩)
      | none => none
  | _ => none

/-- `PaginationMeta.model_validate`: requires an object with a `links` key
validating as `PaginationLinks`. -/
def PaginationMeta.model_validate (d : Json) : Option PaginationMeta :=
  match d with
  | .obj fields =>
      match jsonLookup fields "links" with
      | some v => (PaginationLinks.model_validate v).map (⟨·⟩)
      | none => none
  | _ => none

/-- `PaginatedResponse.model_validate`: the `meta` field carries
`Field(alias="_meta")` and `populate_by_name` is left unset, so validation
accepts ONLY the alias key `_meta` — an input keyed `meta` (as
`model_dump()` emits) fails. `none` is a `ValidationError`. -/
def PaginatedResponse.model_validate (d : Json) : Option PaginatedResponse :=
  match d with
  | .obj fields =>
      match jsonLookup fields "_meta" with
      | some v => (PaginationMeta.model_validate v).map (⟨·⟩)
      | none => none
  | _ => none

/-- A validated page of a paginated list endpoint, generic in the item type
`α` of its `data` array. `nextHref` records, as an input of the model, the
outcome of the next-link interpretation step
`PaginatedResponse.model_validate(response.model_dump())` of
`_get_paginated_response`: `none` for a `ValidationError`, `some href` for
success with `meta.links.next.href = href`. In the program as written this
step can only produce the `ValidationError` outcome — `model_dump()` emits
the field name `meta` while `PaginatedResponse` validates only the `_meta`
alias, as the concrete embedding `ListResponse.model_dump` /
`PaginatedResponse.model_validate` proves below (the C4 code bug) — so the
traces of the program itself are exactly those in which every page has
`nextHref = none`, and runs with `some` exercise the continuation logic the
loop body spells out for a validated next link. -/
structure Page (α : Type) where
  data : List α
  nextHref : Option String
deriving DecidableEq, Repr

/-- `ErrorResponse` and `Error` from `models/error_response.py`, the V2
error envelope (the arbitrary-JSON `_meta` dict of an `Error` is out of
scope and omitted). -/
structure ErrorItem where
  title : String
  detail : String
  type : Option String
deriving DecidableEq, Repr

/-- The V2 `ErrorResponse` envelope. -/
structure ErrorResponse where
  personio_trace_id : String
  timestamp : Int
  errors : List ErrorItem
deriving DecidableEq, Repr

/-- A raw response of a paginated GET endpoint, with the outcomes of parsing
its body against the endpoint response model and against the V2 error
envelope. -/
structure RawPageResponse (α : Type) where
  status_code : Nat
  asPage : Option (Page α)
  asErrorResponse : Option ErrorResponse
deriving DecidableEq, Repr

/-- Outcome of one transport call of `_send_get_request`: a raw response, or
a `RequestException` (wrapped as `CommunicationError`). -/
inductive TransportResult (α : Type)
  | failure
  | response (raw : RawPageResponse α)

/-- The member values of the `http.HTTPStatus` enum of Python 3.12. The
enum call `HTTPStatus(code)` succeeds exactly for these values; for any
other integer it raises `ValueError`. -/
def httpStatusCodes : List Nat :=
  [100, 101, 102, 103,
   200, 201, 202, 203, 204, 205, 206, 207, 208, 226,
   300, 301, 302, 303, 304, 305, 307, 308,
   400, 401, 402, 403, 404, 405, 406, 407, 408, 409, 410, 411, 412, 413, 414,
   415, 416, 417, 418, 421, 422, 423, 424, 425, 426, 428, 429, 431, 451,
   500, 501, 502, 503, 504, 505, 506, 507, 508, 510, 511]

/-- Whether `HTTPStatus(code)` succeeds (the code is an enum member). -/
def isHTTPStatusCode (code : Nat) : Bool :=
  httpStatusCodes.contains code

/-- The exceptions that can escape `_get_paginated_response`. `valueError`
models the Python `ValueError` that `HTTPStatus(actual_status_code)` raises
inside the `except UnexpectedResponse` handler when the status code is not a
member of the `http.HTTPStatus` enum (e.g. 499 or 520); it carries the
offending code. -/
inductive PaginationError (α : Type)
  | communicationError
  | badRequestError (e : ErrorResponse)
  | forbiddenError (e : ErrorResponse)
  | unexpectedResponse (e : UnexpectedResponseData (RawPageResponse α))
  | valueError (status_code : Nat)
deriving DecidableEq, Repr

/-- How a fully drained run of the `_get_paginated_response` generator ends:
the `while` loop broke (normal exhaustion), an exception was raised, or the
modelling fuel ran out (an artifact of embedding the unbounded `while True`
loop; no claim is settled on this branch). -/
inductive PaginationOutcome (α : Type)
  | finished
  | failed (e : PaginationError α)
  | outOfFuel
deriving DecidableEq, Repr

/-- Observable trace of a fully drained `_get_paginated_response` generator:
the query-parameter dicts sent, in order; the pages yielded, in order; and
how the run ended. -/
structure PaginationTrace (α : Type) where
  requests : List (List (String × String))
  pages : List (Page α)
  outcome : PaginationOutcome α
deriving DecidableEq, Repr

/-- `Client._get_paginated_response` from `__init__.py`, drained to a trace.
`server` is the transport collaborator mapping the sent query-parameter dict
to a raw response; `modelName` is `response_model.__name__`; `expected` is
`expected_status_code`; `params` is the dict the current request sends (for
the first request: the dump of the caller query params, or of
`PaginationQueryParams()` when absent). Each iteration sends a GET request
and validates it; on `UnexpectedResponse` the handler first evaluates
`HTTPStatus(actual_status_code)`, which raises `ValueError` when the actual
status code is not an `http.HTTPStatus` member; otherwise the raw response
is re-validated against `ErrorResponse` with the actual status code as the
expected one — if that re-validation fails, its own `UnexpectedResponse`
propagates, else status 400 raises `BadRequestError`, 403 raises
`ForbiddenError`, and any other status re-raises the original exception. On
success the page is yielded; then the outcome of
`PaginatedResponse.model_validate(response.model_dump())` recorded in
`Page.nextHref` is inspected — `ValidationError` (`none`, the only outcome
the program itself can produce, see `Page`) breaks the loop; else the query
string of the next link is extracted and validated against
`PaginationQueryParams` — `ValidationError` breaks the loop, and otherwise
the validated params are sent as the next request. -/
def get_paginated_response {α : Type} (server : List (String × String) → TransportResult α)
    (modelName : String) (expected : Nat) :
    Nat → List (String × String) → PaginationTrace α
  | 0, _ => ⟨[], [], .outOfFuel⟩
  | fuel + 1, params =>
      match server params with
      | .failure => ⟨[params], [], .failed .communicationError⟩
      | .response raw =>
          match validate_response RawPageResponse.status_code RawPageResponse.asPage
              modelName raw expected with
          | .error e =>
              ⟨[params], [],
                .failed
                  (if isHTTPStatusCode e.response.status_code then
                    match validate_response RawPageResponse.status_code
                        RawPageResponse.asErrorResponse "ErrorResponse" e.response
                        e.response.status_code with
                    | .error e2 => .unexpectedResponse e2
                    | .ok error_response =>
                        if e.response.status_code = 400 then .badRequestError error_response
                        else if e.response.status_code = 403 then .forbiddenError error_response
                        else .unexpectedResponse e
                   else .valueError e.response.status_code)⟩
          | .ok page =>
              match page.nextHref with
              | none => ⟨[params], [page], .finished⟩
              | some href =>
                  match validatePaginationQueryParams (extract_query_params href) with
                  | none => ⟨[params], [page], .finished⟩
                  | some nextParams =>
                      let rest := get_paginated_response server modelName expected fuel
                        nextParams.dump
                      ⟨params :: rest.requests, page :: rest.pages, rest.outcome⟩

/-- The `Page` a validated `ListResponse` gives rise to in the loop of
`_get_paginated_response`: the same `data` array, and as `nextHref` the
faithfully computed outcome of
`PaginatedResponse.model_validate(response.model_dump())`, reading
`paginated_response.meta.links.next.href` on success. -/
def ListResponse.toPage {α : Type} (dumpItem : α → Json) (r : ListResponse α) :
    Page α :=
  { data := r.data
    nextHref := (PaginatedResponse.model_validate (r.model_dump dumpItem)).map
      (fun pr => pr.meta.links.next.href) }

/-- A raw response of a paginated GET endpoint whose body-parse outcome
against the endpoint response model is kept as a full `ListResponse`
(including its metadata) rather than a pre-interpreted `Page`. -/
structure RawListResponse (α : Type) where
  status_code : Nat
  asListResponse : Option (ListResponse α)
  asErrorResponse : Option ErrorResponse

/-- Outcome of one transport call, for servers described at the
`ListResponse` level. -/
inductive TransportListResult (α : Type)
  | failure
  | response (raw : RawListResponse α)

/-- A `ListResponse`-level server viewed at the `Page` level, with each
next-link interpretation outcome computed through the concrete
`model_dump` / `model_validate` embedding instead of being an input. -/
def toPageServer {α : Type} (dumpItem : α → Json)
    (server : List (String × String) → TransportListResult α) :
    List (String × String) → TransportResult α := fun params =>
  match server params with
  | .failure => .failure
  | .response raw =>
      .response ⟨raw.status_code, raw.asListResponse.map (ListResponse.toPage dumpItem),
        raw.asErrorResponse⟩

/-- `Client._get_paginated_response` with the next-link interpretation step
`PaginatedResponse.model_validate(response.model_dump())` carried out
concretely (through `ListResponse.model_dump` and
`PaginatedResponse.model_validate`) instead of read off the page. -/
def get_paginated_response_model_dump {α : Type} (dumpItem : α → Json)
    (server : List (String × String) → TransportListResult α)
    (modelName : String) (expected : Nat) (fuel : Nat)
    (params : List (String × String)) : PaginationTrace α :=
  get_paginated_response (toPageServer dumpItem server) modelName expected fuel params

/-- The streamed mode of `Client.get_persons` (`streamed=True`): the
`result_generator` yields `response.data` for each response of
`_get_paginated_response`, one list per page, in order. -/
def get_persons_streamed {α : Type} (server : List (String × String) → TransportResult α)
    (fuel : Nat) (query_params : List (String × String)) : List (List α) :=
  (get_paginated_response server "ListPersonsResponse" 200 fuel query_params).pages.map
    Page.data

/-- The eager mode of `Client.get_persons` (`streamed=False`): the flattening
comprehension `[person for response in responses_generator for person in response.data]`. -/
def get_persons_eager {α : Type} (server : List (String × String) → TransportResult α)
    (fuel : Nat) (query_params : List (String × String)) : List α :=
  (get_paginated_response server "ListPersonsResponse" 200 fuel query_params).pages.flatMap
    Page.data

/-- Restriction of a flat query-parameter mapping to the two keys declared
by `PaginationQueryParams`. -/
def restrictToPaginationKeys (m : List (String × QueryValue)) :
    List (String × QueryValue) :=
  m.filter fun kv => kv.1 = "limit" || kv.1 = "cursor"

/-! Concrete scenario data used by witnesses and counterexamples. -/

/-- A token expiring at time 1000, valid at time 0. -/
def cTokenA : AuthToken := ⟨"token-a", none, 1000, []⟩

/-- A second, distinct token. -/
def cTokenB : AuthToken := ⟨"token-b", none, 2000, []⟩

/-- A parsed OAuth error envelope. -/
def c6Env : AuthErrorResponse := ⟨.server_error, some "internal failure", none, 0, "trace-1"⟩

/-- A token-endpoint raw response with status 500 whose body parses as the
OAuth error envelope. -/
def c6Raw500 : RawAuthResponse := ⟨500, none, some c6Env⟩

/-- A token-endpoint raw response with status 400 whose body parses as the
OAuth error envelope. -/
def c6Raw400 : RawAuthResponse := ⟨400, none, some c6Env⟩

/-- A paginated-endpoint raw response with status 400 whose body parses
neither as a page nor as the V2 error envelope. -/
def c3Raw : RawPageResponse Nat := ⟨400, none, none⟩

/-- A server that always answers with `c3Raw`. -/
def c3Server : List (String × String) → TransportResult Nat := fun _ => .response c3Raw

/-- A next-link URL whose query string carries `limit` and `cursor` plus an
extra filter key. -/
def c10Href : String := "https://api.personio.de/v2/persons?limit=5&cursor=c1&foo=bar"

/-- A two-page server: the first request is answered with a page whose next
link is `c10Href`; every other request with a last page without next link. -/
def c10Server : List (String × String) → TransportResult Nat := fun params =>
  if params = [] then .response ⟨200, some ⟨[1, 2], some c10Href⟩, none⟩
  else .response ⟨200, some ⟨[3], none⟩, none⟩

/-- A wire URL for a next link whose query parameters validate against
`PaginationQueryParams`. -/
def c4NextUrl : String := "https://api.personio.de/v2/persons?limit=5&cursor=c1"

/-- Page metadata whose `links` dict carries exactly the pagination-link
shape: `links.next.href = c4NextUrl`. -/
def c4WireMeta : MetaWithLinks :=
  ⟨[("next", .obj [("href", .str c4NextUrl)])], []⟩

/-- The same metadata as a wire JSON value, keyed by the `_meta` alias the
server sends. -/
def c4WireJson : Json :=
  .obj [("_meta", .obj [("links", .obj c4WireMeta.links)])]

/-- A validated list response carrying two items and the metadata
`c4WireMeta`. -/
def c4ListResponse : ListResponse Nat := ⟨[1, 2], some c4WireMeta⟩

/-- A server that always answers 200 with `c4ListResponse` — a page whose
metadata matches the pagination-link shape and whose next link validates. -/
def c4DumpServer : List (String × String) → TransportListResult Nat := fun _ =>
  .response ⟨200, some c4ListResponse, none⟩

/-- A parsed V2 error envelope. -/
def c3EnvResp : ErrorResponse := ⟨"trace-2", 0, [⟨"Forbidden", "missing scope", none⟩]⟩

/-- A paginated-endpoint raw response with status 403 whose body parses as
the V2 error envelope `c3EnvResp`. -/
def c3Raw403 : RawPageResponse Nat := ⟨403, none, some c3EnvResp⟩

/-- A server that always answers with `c3Raw403`. -/
def c3Server403 : List (String × String) → TransportResult Nat := fun _ => .response c3Raw403

/-- A paginated-endpoint raw response with status 499 — not a member of the
`http.HTTPStatus` enum — whose body parses as the V2 error envelope. -/
def c3Raw499 : RawPageResponse Nat := ⟨499, none, some c3EnvResp⟩

/-- A server that always answers with `c3Raw499`. -/
def c3Server499 : List (String × String) → TransportResult Nat := fun _ => .response c3Raw499

/-! Helper lemmas about `validate_response`, shared by several claims. -/

theorem validate_response_status_ne {Raw M : Type} (statusOf : Raw → Nat)
    (parse : Raw → Option M) (modelName : String) (r : Raw) (expected : Nat)
    (h : statusOf r ≠ expected) :
    validate_response statusOf parse modelName r expected =
      .error ⟨r, "Unexpected status code " ++ toString (statusOf r)
        ++ ". Expected " ++ toString expected ++ "."⟩ := by
  simp [validate_response, h]

theorem validate_response_parse_none {Raw M : Type} (statusOf : Raw → Nat)
    (parse : Raw → Option M) (modelName : String) (r : Raw) (expected : Nat)
    (h : statusOf r = expected) (hp : parse r = none) :
    validate_response statusOf parse modelName r expected =
      .error ⟨r, "Response from did not match expected model " ++ modelName⟩ := by
  simp [validate_response, h, hp]

theorem validate_response_parse_some {Raw M : Type} (statusOf : Raw → Nat)
    (parse : Raw → Option M) (modelName : String) (r : Raw) (expected : Nat)
    (m : M) (h : statusOf r = expected) (hp : parse r = some m) :
    validate_response statusOf parse modelName r expected = .ok m := by
  simp [validate_response, h, hp]

/-- C1: Token cache get-or-refresh. If a cached token exists and is valid at
the current time, `_get_auth_token` returns exactly that token, leaves it
cached, and does not invoke the authenticator — so a second call without
time advancing returns the identical token again with no authentication
call. Otherwise (token absent or invalid) it invokes the authenticator,
stores the new token replacing any previous one, and returns it. -/
theorem C1_token_cache_get_or_refresh (now : Int) (obtain : AuthToken)
    (cached : Option AuthToken) :
    (∀ t, cached = some t → is_token_valid now t = true →
        get_auth_token now obtain cached = ⟨t, some t, false⟩)
    ∧ ((∀ t, cached = some t → is_token_valid now t = false) →
        get_auth_token now obtain cached = ⟨obtain, some obtain, true⟩)
    ∧ (∀ t, cached = some t → is_token_valid now t = true →
        get_auth_token now obtain (get_auth_token now obtain cached).cached
          = ⟨t, some t, false⟩) := by
  refine ⟨?_, ?_, ?_⟩
  · rintro t rfl hv
    simp [get_auth_token, hv]
  · intro h
    cases cached with
    | none => rfl
    | some t => simp [get_auth_token, h t rfl]
  · rintro t rfl hv
    simp [get_auth_token, hv]

/-- Witness for C1 at concrete inputs: the cached token `cTokenA` is valid
at time 0, so the call returns it unchanged without authenticating. -/
theorem C1_token_cache_get_or_refresh_witness :
    get_auth_token 0 cTokenB (some cTokenA) = ⟨cTokenA, some cTokenA, false⟩ :=
  (C1_token_cache_get_or_refresh 0 cTokenB (some cTokenA)).1 cTokenA rfl (by decide)

/-- C2: Token validity predicate. A token is valid at time `now` iff
`now < expires_at - margin` with the margin fixed at 3 minutes; in
particular `expires_at = now + 4` minutes is valid, `now + 2` minutes is
invalid, and `now - 1` second is invalid. -/
theorem C2_token_validity (now : Int) (token : AuthToken) :
    (is_token_valid now token = true ↔ now < token.expires_at - 3 * 60)
    ∧ is_token_valid now { token with expires_at := now + 4 * 60 } = true
    ∧ is_token_valid now { token with expires_at := now + 2 * 60 } = false
    ∧ is_token_valid now { token with expires_at := now - 1 } = false := by
  refine ⟨?_, ?_, ?_, ?_⟩ <;>
    simp [is_token_valid, tokenExpirationMarginSeconds] <;> omega

/-- C9: Construction-time identifier validation. Client construction
succeeds iff both the partner and the app identifier match the upper
snake case pattern; a non-matching identifier (lowercase letters, hyphens,
the empty string) makes construction fail with a `ValueError`. The
constructor performs no network activity (its model has no transport
collaborator at all). -/
theorem C9_construction_validation (client_id client_secret partner app : String)
    (scopes : Option (List String)) (base_url : String) :
    ((Client.init client_id client_secret partner app scopes base_url).isOk = true
      ↔ (is_upper_snake_case partner = true ∧ is_upper_snake_case app = true))
    ∧ is_upper_snake_case "SOME_PARTNER_1" = true
    ∧ is_upper_snake_case "lower_case" = false
    ∧ is_upper_snake_case "WITH-HYPHEN" = false
    ∧ is_upper_snake_case "" = false := by
  refine ⟨?_, by decide, by decide, by decide, by decide⟩
  by_cases h1 : is_upper_snake_case partner = true <;>
    by_cases h2 : is_upper_snake_case app = true <;>
      simp [Client.init, h1, h2, Except.isOk, Except.toBool]

/-- C7: Scope transmission, evaluated at the failing input. A client
constructed with `scopes=["personnel.read", "absences.read"]` does compute
the space-joined scope string into `self._scopes`, but `_obtain_auth_token`
builds `AuthRequest(client_id=..., client_secret=...)` without it, so the
form-encoded body of the credential-exchange request consists of exactly
`client_id`, `client_secret` and `grant_type` — the `scope` field is never
sent, contradicting the claim. -/
theorem C7_scope_never_sent :
    (Client.init "id" "secret" "SOME_PARTNER" "SOME_APP"
        (some ["personnel.read", "absences.read"]) "https://api.personio.de").map
      (fun c => (c.scopes, c.build_auth_request.formBody))
      = .ok (some "personnel.read absences.read",
          [("client_id", "id"), ("client_secret", "secret"),
           ("grant_type", "client_credentials")]) := by
  rfl

/-- C8: Beta header conditionality, evaluated at the failing input. In
`_get_headers` the local `headers` dict aliases `self._personio_headers`, so
the `Beta: true` entry written for a beta-endpoint request persists in the
client state: after one beta-endpoint request, a subsequent request with
`is_beta_endpoint=False` still carries `Beta: true`, contradicting the
claim. -/
theorem C8_beta_header_leaks :
    (Client.init "id" "secret" "SOME_PARTNER" "SOME_APP" none
        "https://api.personio.de").map
      (fun c0 =>
        let r1 := c0.get_headers 0 cTokenA none true false
        let r2 := r1.client.get_headers 0 cTokenA none false false
        (getHeader r1.headers "Beta", getHeader r2.headers "Beta"))
      = .ok (some "true", some "true") := by
  rfl

/-- C3 counterexample: a page request answered with status 400 and a body
that fails to validate as the V2 error envelope. The original
`UnexpectedResponse` carries the status-mismatch message, but what
propagates is the new `UnexpectedResponse` raised by the failed
re-validation — not the original exception, contrary to the claim. -/
theorem C3_counterexample :
    (get_paginated_response c3Server "ListPersonsResponse" 200 1 []).outcome
        = .failed (.unexpectedResponse
            ⟨c3Raw, "Response from did not match expected model ErrorResponse"⟩)
    ∧ (get_paginated_response c3Server "ListPersonsResponse" 200 1 []).outcome
        ≠ .failed (.unexpectedResponse
            ⟨c3Raw, "Unexpected status code 400. Expected 200."⟩) := by
  exact ⟨rfl, by decide⟩

/-- C6 counterexample: the token endpoint answers with status 500 (non-2xx)
and a body that parses as the OAuth error envelope `c6Env`. The claim
requires `AuthenticationError` carrying `c6Env`; the code instead lets the
`UnexpectedResponse` of the re-validation (expected status hard-coded to
400) propagate. -/
theorem C6_counterexample :
    obtain_auth_token 0 (some c6Raw500)
        = .error (.unexpectedResponse ⟨c6Raw500, "Unexpected status code 500. Expected 400."⟩)
    ∧ obtain_auth_token 0 (some c6Raw500)
        ≠ .error (.authenticationError (some c6Env)) := by
  refine ⟨rfl, fun h => ?_⟩
  have e1 : obtain_auth_token 0 (some c6Raw500)
      = .error (.unexpectedResponse
          ⟨c6Raw500, "Unexpected status code 500. Expected 400."⟩) := rfl
  rw [e1] at h
  simp at h

/-- C6 as amended: on a transport-level failure the authenticator raises
`AuthenticationError` with no parsed detail; on a 200 response with a valid
body it returns the token built from it; an error response raises
`AuthenticationError` carrying the parsed OAuth envelope only when its
status is exactly 400 and its body validates — any other unexpected status
(the re-validation expects 400), and a 400 whose body fails to validate,
raise an `UnexpectedResponse` instead. -/
theorem C6_auth_failure_amended (now : Int) (transport : Option RawAuthResponse) :
    (transport = none → obtain_auth_token now transport = .error (.authenticationError none))
    ∧ (∀ raw, transport = some raw →
        (raw.status_code = 200 → ∀ a, raw.asAuthResponse = some a →
            obtain_auth_token now transport = .ok (AuthToken.from_auth_response now a))
        ∧ (raw.status_code = 400 → ∀ env, raw.asAuthErrorResponse = some env →
            obtain_auth_token now transport = .error (.authenticationError (some env)))
        ∧ (raw.status_code ≠ 200 → raw.status_code ≠ 400 →
            obtain_auth_token now transport = .error (.unexpectedResponse
              ⟨raw, "Unexpected status code " ++ toString raw.status_code
                ++ ". Expected " ++ toString (400 : Nat) ++ "."⟩))
        ∧ (raw.status_code = 400 → raw.asAuthErrorResponse = none →
            obtain_auth_token now transport = .error (.unexpectedResponse
              ⟨raw, "Response from did not match expected model AuthErrorResponse"⟩))
        ∧ (raw.status_code = 200 → raw.asAuthResponse = none →
            obtain_auth_token now transport = .error (.unexpectedResponse
              ⟨raw, "Unexpected status code " ++ toString raw.status_code
                ++ ". Expected " ++ toString (400 : Nat) ++ "."⟩))) := by
  refine ⟨fun h => by simp [h, obtain_auth_token], ?_⟩
  rintro raw rfl
  refine ⟨?_, ?_, ?_, ?_, ?_⟩
  · intro h200 a ha
    simp [obtain_auth_token,
      validate_response_parse_some _ _ _ _ _ _ h200 ha]
  · intro h400 env henv
    have h1 : raw.status_code ≠ 200 := by omega
    simp [obtain_auth_token, validate_response_status_ne _ _ _ _ _ h1,
      validate_response_parse_some _ _ _ _ _ _ h400 henv]
  · intro h1 h2
    by_cases ha : raw.asAuthResponse = none
    · simp [obtain_auth_token, validate_response_status_ne _ _ _ _ _ h1,
        validate_response_status_ne _ _ "AuthErrorResponse" _ _ h2]
    · obtain ⟨a, ha⟩ := Option.ne_none_iff_exists'.mp ha
      simp [obtain_auth_token, validate_response_status_ne _ _ _ _ _ h1,
        validate_response_status_ne _ _ "AuthErrorResponse" _ _ h2]
  · intro h400 henv
    have h1 : raw.status_code ≠ 200 := by omega
    simp [obtain_auth_token, validate_response_status_ne _ _ _ _ _ h1,
      validate_response_parse_none _ _ _ _ _ h400 henv, h400]
  · intro h200 ha
    have h2 : raw.status_code ≠ 400 := by omega
    simp only [obtain_auth_token,
      validate_response_parse_none _ _ "AuthResponse" _ _ h200 ha,
      validate_response_status_ne _ _ "AuthErrorResponse" _ _ h2]

/-- Witness for C6 at concrete inputs: a 400 response whose body parses as
`c6Env` raises `AuthenticationError` carrying it. -/
theorem C6_auth_failure_amended_witness :
    obtain_auth_token 0 (some c6Raw400)
      = .error (.authenticationError (some c6Env)) :=
  ((C6_auth_failure_amended 0 (some c6Raw400)).2 c6Raw400 rfl).2.1 (by decide) c6Env (by decide)

/-- C5: Eager/streamed round-trip. For every transport collaborator, fuel
and initial query parameters, the eager result of `get_persons`
(`streamed=False`) equals the in-order flattening of the page lists the
streamed mode (`streamed=True`) yields, preserving order within and across
pages. -/
theorem C5_eager_streamed_round_trip {α : Type}
    (server : List (String × String) → TransportResult α) (fuel : Nat)
    (query_params : List (String × String)) :
    get_persons_eager server fuel query_params
      = (get_persons_streamed server fuel query_params).flatten := by
  unfold get_persons_eager get_persons_streamed
  generalize (get_paginated_response server "ListPersonsResponse" 200 fuel
    query_params).pages = pages
  induction pages with
  | nil => rfl
  | cons p rest ih => simp [ih]

/-- Shared step lemma for the error path of `_get_paginated_response`: when
the page request raises `UnexpectedResponse` with message `msg` and the
actual status code is an `http.HTTPStatus` member, the yielded page list is
empty and the outcome is the status-dispatched domain error — with the new
`UnexpectedResponse` of the failed re-validation when the body does not
parse as the V2 envelope. -/
theorem get_paginated_step_error {α : Type}
    (server : List (String × String) → TransportResult α) (modelName : String)
    (expected fuel : Nat) (params : List (String × String)) (raw : RawPageResponse α)
    (msg : String) (hserver : server params = .response raw)
    (hval : validate_response RawPageResponse.status_code RawPageResponse.asPage
        modelName raw expected = .error ⟨raw, msg⟩)
    (hhs : isHTTPStatusCode raw.status_code = true) :
    get_paginated_response server modelName expected (fuel + 1) params =
      ⟨[params], [],
        .failed
          (match raw.asErrorResponse with
           | none => .unexpectedResponse
               ⟨raw, "Response from did not match expected model ErrorResponse"⟩
           | some env =>
               if raw.status_code = 400 then .badRequestError env
               else if raw.status_code = 403 then .forbiddenError env
               else .unexpectedResponse ⟨raw, msg⟩)⟩ := by
  cases hE : raw.asErrorResponse with
  | none =>
      simp [get_paginated_response, hserver, hval, hhs,
        validate_response_parse_none RawPageResponse.status_code
          RawPageResponse.asErrorResponse "ErrorResponse" raw raw.status_code rfl hE]
  | some env =>
      simp [get_paginated_response, hserver, hval, hhs,
        validate_response_parse_some RawPageResponse.status_code
          RawPageResponse.asErrorResponse "ErrorResponse" raw raw.status_code env rfl hE]

/-- C3 as amended: when a page request raises `UnexpectedResponse`, the
handler first evaluates `HTTPStatus(actual_status_code)` — for a status code
outside the `http.HTTPStatus` enum a `ValueError` propagates (neither the
original nor any `UnexpectedResponse`); for an enum member the engine
re-parses the raw response against the V2 error envelope with the actual
status code as the expected one, raising `BadRequestError` for 400 and
`ForbiddenError` for 403 (each carrying the parsed envelope), and re-raising
the original `UnexpectedResponse` for any other enum status; but when the
re-interpretation itself fails to validate, what propagates is the new
`UnexpectedResponse` raised by the re-validation, not the original one. -/
theorem C3_error_mapping_amended {α : Type}
    (server : List (String × String) → TransportResult α) (modelName : String)
    (expected fuel : Nat) (params : List (String × String)) (raw : RawPageResponse α)
    (hserver : server params = .response raw)
    (hfail : raw.status_code ≠ expected ∨ raw.asPage = none) :
    (get_paginated_response server modelName expected (fuel + 1) params).pages = []
    ∧ (isHTTPStatusCode raw.status_code = false →
        (get_paginated_response server modelName expected (fuel + 1) params).outcome
          = .failed (.valueError raw.status_code))
    ∧ (isHTTPStatusCode raw.status_code = true →
        (∀ env, raw.asErrorResponse = some env →
          (raw.status_code = 400 →
            (get_paginated_response server modelName expected (fuel + 1) params).outcome
              = .failed (.badRequestError env))
          ∧ (raw.status_code = 403 →
            (get_paginated_response server modelName expected (fuel + 1) params).outcome
              = .failed (.forbiddenError env))
          ∧ (raw.status_code ≠ 400 → raw.status_code ≠ 403 →
            (get_paginated_response server modelName expected (fuel + 1) params).outcome
              = .failed (.unexpectedResponse
                  (if raw.status_code = expected then
                    ⟨raw, "Response from did not match expected model " ++ modelName⟩
                   else
                    ⟨raw, "Unexpected status code " ++ toString raw.status_code
                      ++ ". Expected " ++ toString expected ++ "."⟩))))
        ∧ (raw.asErrorResponse = none →
            (get_paginated_response server modelName expected (fuel + 1) params).outcome
              = .failed (.unexpectedResponse
                  ⟨raw, "Response from did not match expected model ErrorResponse"⟩))) := by
  by_cases hs : raw.status_code = expected
  · have hp : raw.asPage = none := by
      rcases hfail with h | h
      · exact absurd hs h
      · exact h
    have hval := validate_response_parse_none RawPageResponse.status_code
      RawPageResponse.asPage modelName raw expected hs hp
    refine ⟨by simp [get_paginated_response, hserver, hval], ?_, ?_⟩
    · intro hhs
      simp [get_paginated_response, hserver, hval, hhs]
    · intro hhs
      have hstep := get_paginated_step_error server modelName expected fuel params raw
        ("Response from did not match expected model " ++ modelName) hserver hval hhs
      rw [hstep]
      refine ⟨?_, ?_⟩
      · intro env hE
        refine ⟨fun h400 => by simp [hE, h400], fun h403 => ?_, fun h400 h403 => ?_⟩
        · have : raw.status_code ≠ 400 := by omega
          simp [hE, h403, this]
        · have h400e : expected ≠ 400 := by omega
          have h403e : expected ≠ 403 := by omega
          simp [hE, hs, h400e, h403e]
      · intro hE
        simp [hE]
  · have hval := validate_response_status_ne RawPageResponse.status_code
      RawPageResponse.asPage modelName raw expected hs
    refine ⟨by simp [get_paginated_response, hserver, hval], ?_, ?_⟩
    · intro hhs
      simp [get_paginated_response, hserver, hval, hhs]
    · intro hhs
      have hstep := get_paginated_step_error server modelName expected fuel params raw
        ("Unexpected status code " ++ toString raw.status_code
          ++ ". Expected " ++ toString expected ++ ".") hserver hval hhs
      rw [hstep]
      refine ⟨?_, ?_⟩
      · intro env hE
        refine ⟨fun h400 => by simp [hE, h400], fun h403 => ?_, fun h400 h403 => ?_⟩
        · have : raw.status_code ≠ 400 := by omega
          simp [hE, h403, this]
        · simp [hE, h400, h403, hs]
      · intro hE
        simp [hE]

/-- Witness for C3 at concrete inputs: a 403 response parsing as the V2
envelope `c3EnvResp` surfaces as `ForbiddenError` carrying it, and a 499
response — 499 is not an `http.HTTPStatus` member — surfaces as the
`ValueError` of the enum call even though its body parses as the
envelope. -/
theorem C3_error_mapping_amended_witness :
    (get_paginated_response c3Server403 "ListPersonsResponse" 200 1 []).outcome
      = .failed (.forbiddenError c3EnvResp)
    ∧ (get_paginated_response c3Server499 "ListPersonsResponse" 200 1 []).outcome
      = .failed (.valueError 499) :=
  ⟨((((C3_error_mapping_amended c3Server403 "ListPersonsResponse" 200 0 [] c3Raw403
      rfl (Or.inl (by decide))).2.2 (by decide)).1 c3EnvResp rfl).2.1) (by decide),
   (C3_error_mapping_amended c3Server499 "ListPersonsResponse" 200 0 [] c3Raw499
      rfl (Or.inl (by decide))).2.1 (by decide)⟩

/-- C4, evaluated against the concrete `model_dump` embedding: the loop of
`_get_paginated_response` can never continue past a yielded page. The
re-validation `PaginatedResponse.model_validate(response.model_dump())`
fails for EVERY response — `model_dump()` emits the field-name keys `data`
and `meta` while `PaginatedResponse` accepts only the `_meta` alias — so
the claim branch in which the validated next-link mapping becomes the next
request is unreachable. The second conjunct shows the same metadata, keyed
as the server sends it on the wire (`_meta`), does match the
pagination-link shape; the third runs the engine on a server whose page
carries exactly that metadata and a next link with validating query
parameters: the run still stops after one page, with no second request. -/
theorem C4_pagination_never_continues :
    (∀ (α : Type) (dumpItem : α → Json) (r : ListResponse α),
        PaginatedResponse.model_validate (ListResponse.model_dump dumpItem r) = none)
    ∧ PaginatedResponse.model_validate c4WireJson = some ⟨⟨⟨⟨c4NextUrl⟩⟩⟩⟩
    ∧ validatePaginationQueryParams (extract_query_params c4NextUrl)
        = some ⟨some 5, some "c1"⟩
    ∧ get_paginated_response_model_dump (fun n => Json.num (Int.ofNat n)) c4DumpServer
        "ListPersonsResponse" 200 2 []
        = ⟨[[]], [⟨[1, 2], none⟩], .finished⟩ := by
  exact ⟨fun α dumpItem r => rfl, rfl, rfl, rfl⟩

/-- Restricting a flat mapping to the `limit` and `cursor` keys does not
change the lookup of either key. -/
theorem lookupParam_restrict (m : List (String × QueryValue)) (k : String)
    (hk : k = "limit" ∨ k = "cursor") :
    lookupParam (restrictToPaginationKeys m) k = lookupParam m k := by
  induction m with
  | nil => rfl
  | cons kv rest ih =>
      rcases kv with ⟨k', v⟩
      by_cases hkeep : (k' = "limit" || k' = "cursor") = true
      · have hstep : restrictToPaginationKeys ((k', v) :: rest)
            = (k', v) :: restrictToPaginationKeys rest := by
          simp [restrictToPaginationKeys, List.filter_cons, hkeep]
        rw [hstep]
        by_cases hek : k' = k
        · simp [lookupParam, hek]
        · simp [lookupParam, hek, ih]
      · have hkek : k' ≠ k := by
          simp only [Bool.or_eq_true, decide_eq_true_eq, not_or] at hkeep
          rcases hk with h | h <;> subst h
          · exact hkeep.1
          · exact hkeep.2
        have hstep : restrictToPaginationKeys ((k', v) :: rest)
            = restrictToPaginationKeys rest := by
          simp [restrictToPaginationKeys, List.filter_cons, hkeep]
        rw [hstep]
        simp [lookupParam, hkek, ih]

/-- `PaginationQueryParams` validation only reads the `limit` and `cursor`
keys: every other key of the mapping is ignored and can neither change the
result nor make the validation fail. -/
theorem validatePaginationQueryParams_restrict (m : List (String × QueryValue)) :
    validatePaginationQueryParams (restrictToPaginationKeys m)
      = validatePaginationQueryParams m := by
  unfold validatePaginationQueryParams
  rw [lookupParam_restrict m "limit" (Or.inl rfl),
    lookupParam_restrict m "cursor" (Or.inr rfl)]

/-- The dumped query-parameter dict of a `PaginationQueryParams` has no keys
other than `limit` and `cursor`. -/
theorem paginationQueryParams_dump_keys (q : PaginationQueryParams) :
    ∀ k ∈ q.dump.map Prod.fst, k = "limit" ∨ k = "cursor" := by
  rcases q with ⟨l, c⟩
  cases l <;> cases c <;> simp [PaginationQueryParams.dump]

/-- With at least one unit of fuel, a pagination run sends its own params as
the first request. -/
theorem get_paginated_requests_cons {α : Type}
    (server : List (String × String) → TransportResult α) (modelName : String)
    (expected fuel : Nat) (params : List (String × String)) :
    ∃ rest, (get_paginated_response server modelName expected (fuel + 1) params).requests
      = params :: rest := by
  unfold get_paginated_response
  split
  · exact ⟨[], rfl⟩
  · split
    · exact ⟨[], rfl⟩
    · split
      · exact ⟨[], rfl⟩
      · split
        · exact ⟨[], rfl⟩
        · exact ⟨_, rfl⟩

/-- Every request a pagination run sends after its first one is the dump of
the validated `PaginationQueryParams` extracted from the next link of one of
the pages it yielded. -/
theorem get_paginated_requests_from_links {α : Type}
    (server : List (String × String) → TransportResult α) (modelName : String)
    (expected : Nat) :
    ∀ fuel params r,
      r ∈ (get_paginated_response server modelName expected fuel params).requests.drop 1 →
      ∃ p ∈ (get_paginated_response server modelName expected fuel params).pages,
        ∃ href q, p.nextHref = some href
          ∧ validatePaginationQueryParams (extract_query_params href) = some q
          ∧ r = q.dump := by
  intro fuel
  induction fuel with
  | zero =>
      intro params r hr
      simp [get_paginated_response] at hr
  | succ f ih =>
      intro params r hr
      rcases hs : server params with _ | raw
      · simp [get_paginated_response, hs] at hr
      · rcases hv : validate_response RawPageResponse.status_code RawPageResponse.asPage
            modelName raw expected with e | page
        · simp [get_paginated_response, hs, hv] at hr
        · rcases hn : page.nextHref with _ | href
          · simp [get_paginated_response, hs, hv, hn] at hr
          · rcases hq : validatePaginationQueryParams (extract_query_params href)
                with _ | q
            · simp [get_paginated_response, hs, hv, hn, hq] at hr
            · have hrun : get_paginated_response server modelName expected (f + 1) params
                  = ⟨params ::
                      (get_paginated_response server modelName expected f q.dump).requests,
                     page ::
                      (get_paginated_response server modelName expected f q.dump).pages,
                     (get_paginated_response server modelName expected f q.dump).outcome⟩ := by
                simp [get_paginated_response, hs, hv, hn, hq]
              rw [hrun] at hr ⊢
              simp only [List.drop_succ_cons, List.drop_zero] at hr
              cases f with
              | zero => simp [get_paginated_response] at hr
              | succ f' =>
                  obtain ⟨rest, hrest⟩ :=
                    get_paginated_requests_cons server modelName expected f' q.dump
                  rw [hrest] at hr
                  rcases List.mem_cons.mp hr with rfl | hr'
                  · exact ⟨page, List.mem_cons_self _ _, href, q, hn, hq, rfl⟩
                  · have hr'' : r ∈ (get_paginated_response server modelName expected
                        (f' + 1) q.dump).requests.drop 1 := by
                      rw [hrest]
                      simpa using hr'
                    obtain ⟨p, hp, href', q', h1, h2, h3⟩ := ih q.dump r hr''
                    exact ⟨p, List.mem_cons_of_mem _ hp, href', q', h1, h2, h3⟩

/-- C10: Next-link parameter narrowing. Validation against
`PaginationQueryParams` depends only on the `limit` and `cursor` entries of
the mapping (every other key is silently dropped and unknown keys never make
it fail — concretely, a next link carrying an extra `foo=bar` validates to
just the limit and cursor); and every request a pagination run sends after
the first consists exactly of the dumped `limit`/`cursor` fields of the
validated mapping extracted from the next link of a previously yielded
page. -/
theorem C10_next_link_narrowing {α : Type}
    (server : List (String × String) → TransportResult α) (modelName : String)
    (expected fuel : Nat) (params : List (String × String))
    (m : List (String × QueryValue)) (r : List (String × String))
    (hr : r ∈ (get_paginated_response server modelName expected fuel params).requests.drop 1) :
    validatePaginationQueryParams (restrictToPaginationKeys m)
      = validatePaginationQueryParams m
    ∧ validatePaginationQueryParams (extract_query_params c10Href)
      = some ⟨some 5, some "c1"⟩
    ∧ ∃ p ∈ (get_paginated_response server modelName expected fuel params).pages,
        ∃ href q, p.nextHref = some href
          ∧ validatePaginationQueryParams (extract_query_params href) = some q
          ∧ r = q.dump
          ∧ ∀ k ∈ r.map Prod.fst, k = "limit" ∨ k = "cursor" := by
  refine ⟨validatePaginationQueryParams_restrict m, by rfl, ?_⟩
  obtain ⟨p, hp, href, q, h1, h2, h3⟩ :=
    get_paginated_requests_from_links server modelName expected fuel params r hr
  exact ⟨p, hp, href, q, h1, h2, h3, h3 ▸ paginationQueryParams_dump_keys q⟩

/-- Witness for C10 at concrete inputs: with the two-page server, the second
request consists exactly of the `limit` and `cursor` taken from the next
link of the first page, the extra `foo=bar` having been dropped. -/
theorem C10_next_link_narrowing_witness :
    validatePaginationQueryParams (restrictToPaginationKeys [])
      = validatePaginationQueryParams []
    ∧ validatePaginationQueryParams (extract_query_params c10Href)
      = some ⟨some 5, some "c1"⟩
    ∧ ∃ p ∈ (get_paginated_response c10Server "ListPersonsResponse" 200 2 []).pages,
        ∃ href q, p.nextHref = some href
          ∧ validatePaginationQueryParams (extract_query_params href) = some q
          ∧ [("limit", "5"), ("cursor", "c1")] = q.dump
          ∧ ∀ k ∈ [("limit", "5"), ("cursor", "c1")].map Prod.fst,
              k = "limit" ∨ k = "cursor" :=
  C10_next_link_narrowing c10Server "ListPersonsResponse" 200 2 [] []
    [("limit", "5"), ("cursor", "c1")]
    (by
      rw [show (get_paginated_response c10Server "ListPersonsResponse" 200 2 []).requests
        = [[], [("limit", "5"), ("cursor", "c1")]] from rfl]
      simp)

end Pysonio
